import Mathlib

/-!
Shallow embedding of `src/config.rs` (the keybinding resolution engine of the
`void` outline editor): the `Mode`, `Action` and `Key` data model, the token
grammars `to_action` and `to_key`, the compiled-in default binding list, the
override-file parser `parse_keyfile` and the dispatch function `Config.map`,
together with theorems settling the specification claims about them.
-/

namespace Void

/-- Mode enum from `config.rs`: the editor's interaction state. -/
inductive Mode where
  | Normal
  | Insert
deriving DecidableEq, Repr

/-- Key enum from the `termion` crate (`termion::event::Key`), as consumed by
`config.rs`: a named key, a plain character, or a modifier-combined character. -/
inductive Key where
  | Backspace
  | Left
  | Right
  | Up
  | Down
  | Home
  | KEnd
  | PageUp
  | PageDown
  | BackTab
  | Delete
  | Insert
  | F (n : Nat)
  | Char (c : Char)
  | Alt (c : Char)
  | Ctrl (c : Char)
  | Null
  | Esc
deriving DecidableEq, Repr

/-- Action enum from `config.rs`: the closed set of abstract commands. -/
inductive Action where
  | Mode (m : Void.Mode)
  | LeftClick (x y : Nat)
  | RightClick (x y : Nat)
  | Release (x y : Nat)
  | Char (m : Void.Mode) (c : Char)
  | UnselectRet
  | ScrollUp
  | ScrollDown
  | DeleteSelected
  | SelectUp
  | SelectDown
  | SelectLeft
  | SelectRight
  | EraseChar
  | CreateSibling
  | CreateChild
  | CreateFreeNode
  | ExecSelected
  | DrillDown
  | PopUp
  | PrefixJump
  | ToggleCompleted
  | ToggleHideCompleted
  | Arrow
  | AutoArrange
  | ToggleCollapsed
  | Quit
  | Save
  | ToggleShowLogs
  | EnterCmd
  | FindTask
  | YankPasteNode
  | RaiseSelected
  | LowerSelected
  | Search
  | UndoDelete
  | Help
  | SelectParent
  | SelectNextSibling
  | SelectPrevSibling
deriving DecidableEq, Repr

/-- MouseButton enum from `termion::event::MouseButton`. -/
inductive MouseButton where
  | Left
  | Right
  | Middle
  | WheelUp
  | WheelDown
deriving DecidableEq, Repr

/-- MouseEvent enum from `termion::event::MouseEvent`; coordinates are `u16`
in the source, modelled as `Nat` (no arithmetic is performed on them). -/
inductive MouseEvent where
  | Press (b : MouseButton) (x y : Nat)
  | Release (x y : Nat)
  | Hold (x y : Nat)
deriving DecidableEq, Repr

/-- Event enum from `termion::event::Event`. -/
inductive Event where
  | Key (k : Void.Key)
  | Mouse (m : MouseEvent)
  | Unsupported (bytes : List Nat)
deriving DecidableEq, Repr

/-- Embedding of `fn to_action(input: String) -> Option<Action>`
(config.rs lines 61-100): the case-sensitive action-name token grammar. -/
def to_action (input : String) : Option Action :=
  if input = "unselect" then some .UnselectRet
  else if input = "scroll_up" then some .ScrollUp
  else if input = "scroll_down" then some .ScrollDown
  else if input = "delete" then some .DeleteSelected
  else if input = "select_up" then some .SelectUp
  else if input = "select_down" then some .SelectDown
  else if input = "select_left" then some .SelectLeft
  else if input = "select_right" then some .SelectRight
  else if input = "erase" then some .EraseChar
  else if input = "create_sibling" then some .CreateSibling
  else if input = "create_child" then some .CreateChild
  else if input = "create_free_node" then some .CreateFreeNode
  else if input = "execute" then some .ExecSelected
  else if input = "drill_down" then some .DrillDown
  else if input = "pop_up" then some .PopUp
  else if input = "jump" then some .PrefixJump
  else if input = "toggle_completed" then some .ToggleCompleted
  else if input = "toggle_hide_completed" then some .ToggleHideCompleted
  else if input = "arrow" then some .Arrow
  else if input = "auto_arrange" then some .AutoArrange
  else if input = "toggle_collapsed" then some .ToggleCollapsed
  else if input = "quit" then some .Quit
  else if input = "save" then some .Save
  else if input = "toggle_show_logs" then some .ToggleShowLogs
  else if input = "enter_command" then some .EnterCmd
  else if input = "find_task" then some .FindTask
  else if input = "yank_paste_node" then some .YankPasteNode
  else if input = "raise_selected" then some .RaiseSelected
  else if input = "lower_selected" then some .LowerSelected
  else if input = "search" then some .Search
  else if input = "undo_delete" then some .UndoDelete
  else if input = "help" then some .Help
  else if input = "select_parent" then some .SelectParent
  else if input = "select_next_sibling" then some .SelectNextSibling
  else if input = "select_prev_sibling" then some .SelectPrevSibling
  else none

/-- Embedding of the inner helper `extract_key(raw_key: &str, idx: usize)`
(config.rs line 106): `raw_key.chars().nth(idx)` indexes Unicode characters. -/
def extract_key (raw_key : String) (idx : Nat) : Option Char :=
  raw_key.data.get? idx

/-- Rust `str::starts_with(char)`: does the string begin with this character? -/
def startsWithChar (s : String) (c : Char) : Bool :=
  match s.data with
  | [] => false
  | a :: _ => a = c

/-- Rust `str::starts_with` for a two-character pattern, as used for the
`A-` and `C-` modifier prefixes. -/
def startsWith2 (s : String) (c₁ c₂ : Char) : Bool :=
  match s.data with
  | a :: b :: _ => a = c₁ && b = c₂
  | _ => false

/-- Rust `str::trim`: drop leading and trailing whitespace characters. -/
def trimStr (s : String) : String :=
  ⟨((s.data.dropWhile Char.isWhitespace).reverse.dropWhile
      Char.isWhitespace).reverse⟩

/-- Embedding of `fn to_key(raw_key: String) -> Option<Key>` (config.rs
lines 103-130). The arm order of the Rust match is kept: named literal
tokens first, then the `key.len() == 1` guard (Rust `str::len` is the
UTF-8 byte length, modelled by `String.utf8ByteSize`), then the `A-` and
`C-` prefixed forms. -/
def to_key (raw_key : String) : Option Key :=
  if raw_key = "esc" then some .Esc
  else if raw_key = "pgup" then some .PageUp
  else if raw_key = "pgdn" then some .PageDown
  else if raw_key = "del" then some .Delete
  else if raw_key = "backspace" then some .Backspace
  else if raw_key = "up" then some .Up
  else if raw_key = "down" then some .Down
  else if raw_key = "left" then some .Left
  else if raw_key = "right" then some .Right
  else if raw_key = "space" then some (.Char ' ')
  else if raw_key = "enter" then some (.Char '\n')
  else if raw_key = "tab" then some (.Char '\t')
  else if raw_key.utf8ByteSize = 1 then (extract_key raw_key 0).map .Char
  else if startsWith2 raw_key 'A' '-' then (extract_key raw_key 2).map .Alt
  else if startsWith2 raw_key 'C' '-' then (extract_key raw_key 2).map .Ctrl
  else none

/-- Ordered literal association list from `impl Default for Config`
(config.rs lines 141-180), in source order. Note the duplicate
`(Normal, Ctrl('p'))` pair: once to `AutoArrange`, later to
`SelectPrevSibling`. -/
def default_list : List ((Mode × Key) × Action) :=
  [ ((Mode.Normal, Key.Char 'i'), Action.Mode Mode.Insert),
    ((Mode.Normal, Key.Char 'A'), Action.Mode Mode.Insert),
    ((Mode.Insert, Key.Esc), Action.Mode Mode.Normal),
    ((Mode.Normal, Key.PageUp), Action.ScrollUp),
    ((Mode.Normal, Key.PageDown), Action.ScrollDown),
    ((Mode.Normal, Key.Delete), Action.DeleteSelected),
    ((Mode.Normal, Key.Char 'k'), Action.SelectUp),
    ((Mode.Normal, Key.Char 'j'), Action.SelectDown),
    ((Mode.Normal, Key.Char 'h'), Action.SelectLeft),
    ((Mode.Normal, Key.Char 'l'), Action.SelectRight),
    ((Mode.Insert, Key.Backspace), Action.EraseChar),
    ((Mode.Normal, Key.F 1), Action.PrefixJump),
    ((Mode.Normal, Key.Char 'o'), Action.CreateSibling),
    ((Mode.Normal, Key.Char '\t'), Action.CreateChild),
    ((Mode.Normal, Key.Char 'n'), Action.CreateFreeNode),
    ((Mode.Normal, Key.Ctrl 'k'), Action.ExecSelected),
    ((Mode.Normal, Key.Ctrl 'w'), Action.DrillDown),
    ((Mode.Normal, Key.Ctrl 'q'), Action.PopUp),
    ((Mode.Normal, Key.Char 'f'), Action.PrefixJump),
    ((Mode.Normal, Key.Ctrl 'a'), Action.ToggleCompleted),
    ((Mode.Normal, Key.Ctrl 'h'), Action.ToggleHideCompleted),
    ((Mode.Normal, Key.Ctrl 'r'), Action.Arrow),
    ((Mode.Normal, Key.Ctrl 'p'), Action.AutoArrange),
    ((Mode.Normal, Key.Char ' '), Action.ToggleCollapsed),
    ((Mode.Normal, Key.Ctrl 'c'), Action.Quit),
    ((Mode.Normal, Key.Ctrl 'x'), Action.Save),
    ((Mode.Normal, Key.Ctrl 'l'), Action.ToggleShowLogs),
    ((Mode.Normal, Key.Char ':'), Action.EnterCmd),
    ((Mode.Normal, Key.Ctrl 'v'), Action.FindTask),
    ((Mode.Normal, Key.Char 'y'), Action.YankPasteNode),
    ((Mode.Normal, Key.Char 'K'), Action.RaiseSelected),
    ((Mode.Normal, Key.Char 'J'), Action.LowerSelected),
    ((Mode.Normal, Key.Char '/'), Action.Search),
    ((Mode.Normal, Key.Char 'u'), Action.UndoDelete),
    ((Mode.Normal, Key.Ctrl '?'), Action.Help),
    ((Mode.Normal, Key.Alt 'P'), Action.SelectParent),
    ((Mode.Normal, Key.Ctrl 'n'), Action.SelectNextSibling),
    ((Mode.Normal, Key.Ctrl 'p'), Action.SelectPrevSibling) ]

/-- Lookup in an association list folded into a map in insertion order:
a later entry for the same key replaces an earlier one (the semantics of
building a `HashMap` from the ordered list and then calling `get`). -/
def lookupLast (l : List ((Mode × Key) × Action)) (k : Mode × Key) :
    Option Action :=
  l.foldl (fun acc e => if e.1 = k then some e.2 else acc) none

/-- Embedding of `struct Config { config: HashMap<(Mode, Key), Action> }`
(config.rs lines 132-135); the map is represented by the ordered insertion
list, with `lookupLast` giving the `HashMap` lookup semantics. -/
structure Config where
  config : List ((Mode × Key) × Action)
deriving DecidableEq, Repr

/-- HashMap `get` on the binding table. -/
def Config.get (c : Config) (k : Mode × Key) : Option Action :=
  lookupLast c.config k

/-- Embedding of `impl Default for Config` (config.rs lines 137-184). -/
def Config.default : Config := ⟨default_list⟩

/-- Embedding of `pub fn map(&self, e: Event, mode: Mode) -> Option<Action>`
(config.rs lines 246-274), arm for arm in source order. -/
def Config.map (c : Config) (e : Event) (mode : Mode) : Option Action :=
  match e with
  | .Key (.Char ch) =>
      match c.get (mode, .Char ch) with
      | some action => some action
      | none => some (.Char mode ch)
  | .Mouse (.Press .Right x y) => some (.RightClick x y)
  | .Mouse (.Press _ x y) => some (.LeftClick x y)
  | .Mouse (.Release x y) => some (.Release x y)
  | .Mouse (.Hold _ _) => none
  | .Key other => c.get (mode, other)
  | _ => none

/-- Errors returned (as `io::Error` values built with `format!`) by
`parse_keyfile`: "No colon found on line {n}" and
"invalid config at line {n}: {line}". The structured fields carry exactly
the data interpolated into the message. -/
inductive ParseError where
  | noColon (lineNum : Nat)
  | invalidConfig (lineNum : Nat) (line : String)
deriving DecidableEq, Repr

/-- Outcome of `parse_keyfile` on given file text: `ok` for `Ok(config)`,
`err` for an early `return Err(..)`, and `panicTodo` for reaching the
`todo!()` on line 239 of config.rs (a Rust panic aborting the process),
recording the 1-indexed line number being processed when it is hit. -/
inductive ParseResult where
  | ok (c : Config)
  | err (e : ParseError)
  | panicTodo (lineNum : Nat)
deriving DecidableEq, Repr

/-- Discriminator: did parsing end in an early `Err` return? -/
def ParseResult.isErr : ParseResult → Bool
  | .err _ => true
  | _ => false

/-- Split a character list at every newline character; always returns at
least one (possibly empty) piece. -/
def splitNl : List Char → List (List Char)
  | [] => [[]]
  | c :: rest =>
      if c = '\n' then [] :: splitNl rest
      else
        match splitNl rest with
        | [] => [[c]]
        | l :: ls => (c :: l) :: ls

/-- Strip one trailing carriage return, as Rust `str::lines` does to each
line it yields. -/
def stripCR (l : List Char) : List Char :=
  if l.getLast? = some '\r' then l.dropLast else l

/-- Embedding of Rust `str::lines` as used on the file text
(config.rs line 210): split on newline, drop the final empty piece produced
by a trailing newline (or by an empty string), and strip one trailing
carriage return from each line. -/
def rustLines (s : String) : List String :=
  let parts := splitNl s.data
  let parts := if parts.getLast? = some [] then parts.dropLast else parts
  parts.map (fun l => String.mk (stripCR l))

/-- Split a character list at the first colon, keeping the remainder
(the behavior of Rust `splitn(2, ':')` on the underlying characters). -/
def splitFirstColon : List Char → List Char × Option (List Char)
  | [] => ([], none)
  | c :: rest =>
      if c = ':' then ([], some rest)
      else
        let r := splitFirstColon rest
        (c :: r.1, r.2)

/-- Embedding of `line.splitn(2, ':')` (config.rs line 218): one piece when
the line has no colon, otherwise the part before the first colon and the
whole remainder after it. -/
def splitn2Colon (line : String) : List String :=
  match splitFirstColon line.data with
  | (l, none) => [String.mk l]
  | (l, some r) => [String.mk l, String.mk r]

/-- The line-processing loop of `parse_keyfile` (config.rs lines 210-243)
over the enumerated (0-based index, line) list: skip blank and `#` lines,
report a missing colon, resolve the trimmed action and key tokens, and on
a fully resolved binding reach the `todo!()`. -/
def processLines : List (Nat × String) → ParseResult
  | [] => .ok Config.default
  | (idx, line) :: rest =>
      if line.data.isEmpty || startsWithChar line '#' then processLines rest
      else
        let line_num := idx + 1
        let parts := (splitn2Colon line).map trimStr
        if parts.length ≠ 2 then .err (.noColon line_num)
        else
          let raw_action := parts.getD 0 ""
          let raw_key := parts.getD 1 ""
          let key_opt := to_key raw_key
          let action_opt := to_action raw_action
          if key_opt.isNone || action_opt.isNone then
            .err (.invalidConfig line_num line)
          else
            .panicTodo line_num

/-- Embedding of `pub fn parse_keyfile(p: String) -> io::Result<Config>`
(config.rs lines 205-244) after the file has been read into `buf`: the
file-system read itself is out of scope, so the function is modelled on
the file text. -/
def parse_keyfile_text (buf : String) : ParseResult :=
  processLines (rustLines buf).enum

/-! Helper lemmas about the line-processing loop. -/

/-- A prefix of blank and comment lines is skipped by the loop. -/
theorem processLines_append_skip (pre rest : List (Nat × String))
    (h : pre.all (fun p => p.2.data.isEmpty || startsWithChar p.2 '#') = true) :
    processLines (pre ++ rest) = processLines rest := by
  induction pre with
  | nil => rfl
  | cons p ps ih =>
      simp only [List.all_cons, Bool.and_eq_true] at h
      obtain ⟨h1, h2⟩ := h
      obtain ⟨idx, line⟩ := p
      simp only [List.cons_append, processLines]
      rw [if_pos h1]
      exact ih h2

/-- Whenever the loop returns `Ok`, the returned table is the untouched
default and every line was skipped as blank or comment: every non-skipped
line either returns an error early or reaches the `todo!()` panic. -/
theorem processLines_ok (l : List (Nat × String)) (c : Config)
    (h : processLines l = .ok c) :
    c = Config.default ∧
      l.all (fun p => p.2.data.isEmpty || startsWithChar p.2 '#') = true := by
  induction l with
  | nil =>
      simp only [processLines, ParseResult.ok.injEq] at h
      simp [h.symm]
  | cons p ps ih =>
      obtain ⟨idx, line⟩ := p
      simp only [processLines] at h
      by_cases hskip : (line.data.isEmpty || startsWithChar line '#') = true
      · rw [if_pos hskip] at h
        obtain ⟨hc, hall⟩ := ih h
        exact ⟨hc, by simp [List.all_cons, hskip, hall]⟩
      · rw [if_neg hskip] at h
        split at h
        · exact ParseResult.noConfusion h
        · split at h
          · exact ParseResult.noConfusion h
          · exact ParseResult.noConfusion h

/-- A character list without a colon is returned whole by the splitter. -/
theorem splitFirstColon_no_colon (l : List Char) (h : ':' ∉ l) :
    splitFirstColon l = (l, none) := by
  induction l with
  | nil => rfl
  | cons c cs ih =>
      rw [List.mem_cons, not_or] at h
      simp only [splitFirstColon]
      rw [if_neg (fun hc => h.1 hc.symm)]
      simp [ih h.2]

/-- Transfer an `all` fact over an enumerated list back to the plain list. -/
theorem all_enumFrom (Q : String → Bool) (n : Nat) (l : List String)
    (h : ((List.enumFrom n l).all (fun p => Q p.2)) = true) : l.all Q = true := by
  induction l generalizing n with
  | nil => rfl
  | cons x xs ih =>
      simp only [List.enumFrom, List.all_cons, Bool.and_eq_true] at h ⊢
      exact ⟨h.1, ih (n + 1) h.2⟩

/-! Claim theorems. -/

/-- C1: the claim says that for override text containing the line
`quit: C-c` construction succeeds and the resulting table maps
`(Normal, Ctrl('c'))` to `Quit`. The code is at fault, not the claim: both
tokens of the line resolve (the action token to `Quit`, the key token to
`Ctrl('c')`), yet `parse_keyfile` reaches the `todo!()` left where the merge
into the base table should happen (config.rs line 239, with the intended
insert present but commented out on line 240) and panics instead of
returning a table at all. This theorem evaluates the embedded parser at the
failing input, showing the line is fully resolved and the panic is reached
while processing line 1. -/
theorem C1_quit_override_reaches_todo_panic :
    to_action "quit" = some Action.Quit ∧
      to_key "C-c" = some (Key.Ctrl 'c') ∧
      parse_keyfile_text "quit: C-c" = ParseResult.panicTodo 1 := by decide

/-- C2: for every override file text, whenever the parser returns `Ok`,
the returned table is exactly the compiled-in default — a successful
construction never stores any binding parsed from the file — and `Ok` is
only returned when every line of the file is blank or starts with `#`. -/
theorem C2_ok_keeps_default_table (buf : String) (c : Config)
    (h : parse_keyfile_text buf = .ok c) :
    c = Config.default ∧
      (rustLines buf).all
        (fun line => line.data.isEmpty || startsWithChar line '#') = true := by
  obtain ⟨hc, hall⟩ := processLines_ok _ _ h
  refine ⟨hc, all_enumFrom _ 0 _ ?_⟩
  simpa [List.enum] using hall

/-- C2 witness: the one-comment-line file parses to `Ok` with the default
table, and the theorem's conclusion holds there. -/
theorem C2_ok_keeps_default_table_witness :
    Config.default = Config.default ∧
      (rustLines "# comment\n").all
        (fun line => line.data.isEmpty || startsWithChar line '#') = true :=
  C2_ok_keeps_default_table "# comment\n" Config.default (by decide)

/-- C3 counterexample: the claim also covers lines with more than one
colon, but `splitn(2, ':')` splits only at the first colon, so the line
`quit: C-:` (two colons) resolves both tokens — the key spec `C-:` parses
to `Ctrl(':')` — and parsing does not return any error for it (it reaches
the `todo!()` panic on the fully resolved binding instead of an `Err`). -/
theorem C3_two_colons_no_error_counterexample :
    ("quit: C-:").data.count ':' = 2 ∧
      parse_keyfile_text "quit: C-:" = ParseResult.panicTodo 1 ∧
      ParseResult.isErr (parse_keyfile_text "quit: C-:") = false := by decide

/-- C3 (amended): for every non-blank, non-comment line reached by the
parser (all earlier lines blank or comments), if the line contains zero
colon characters, construction fails with the no-colon fatal parse error
reporting the 1-indexed line number; lines with more than one colon are
split at the first colon and need not fail. -/
theorem C3_zero_colon_fatal (buf : String) (pre rest : List (Nat × String))
    (i : Nat) (line : String)
    (henum : (rustLines buf).enum = pre ++ (i, line) :: rest)
    (hpre : pre.all (fun p => p.2.data.isEmpty || startsWithChar p.2 '#') = true)
    (hne : line.data.isEmpty = false)
    (hnh : startsWithChar line '#' = false)
    (hcolon : ':' ∉ line.data) :
    parse_keyfile_text buf = .err (.noColon (i + 1)) := by
  unfold parse_keyfile_text
  rw [henum, processLines_append_skip pre _ hpre]
  have hs : splitFirstColon line.data = (line.data, none) :=
    splitFirstColon_no_colon _ hcolon
  simp [processLines, splitn2Colon, hs, hne, hnh]

/-- C3 witness: override text whose line 1 is `quit C-c` (no colon) fails
with the no-colon error referencing line 1. -/
theorem C3_zero_colon_fatal_witness :
    parse_keyfile_text "quit C-c" = .err (.noColon 1) :=
  C3_zero_colon_fatal "quit C-c" [] [] 0 "quit C-c" (by decide) (by decide)
    (by decide) (by decide) (by decide)

/-- C4 counterexample: the entry `((Normal, Ctrl('p')), AutoArrange)`
appears in the compiled-in default binding list, yet resolving a
`Ctrl('p')` key event in `Normal` mode on the default table yields
`SelectPrevSibling` (the later duplicate), not `AutoArrange` — so the
claim does not hold for every entry appearing in the list. -/
theorem C4_superseded_entry_counterexample :
    ((Mode.Normal, Key.Ctrl 'p'), Action.AutoArrange) ∈ default_list ∧
      Config.map Config.default (Event.Key (Key.Ctrl 'p')) Mode.Normal =
        some Action.SelectPrevSibling ∧
      Action.SelectPrevSibling ≠ Action.AutoArrange := by decide

/-- C4 (amended): for every `(mode, key)` pair bound by the default list,
resolving a key event for `key` while in `mode` with no override file
returns the action of the last entry in the list for that pair (the one
surviving the in-order fold into the table); entries superseded by a later
duplicate for the same pair do not apply. -/
theorem C4_default_binding_resolves (mode : Mode) (key : Key) (a : Action)
    (h : Config.get Config.default (mode, key) = some a) :
    Config.map Config.default (Event.Key key) mode = some a := by
  cases key <;> simp_all [Config.map]

/-- C4 witness: the default binding `(Normal, 'i') -> Mode(Insert)`
resolves as bound. -/
theorem C4_default_binding_resolves_witness :
    Config.map Config.default (Event.Key (Key.Char 'i')) Mode.Normal =
      some (Action.Mode Mode.Insert) :=
  C4_default_binding_resolves Mode.Normal (Key.Char 'i')
    (Action.Mode Mode.Insert) (by decide)

/-- C5: the default list contains the duplicate pair `(Normal, Ctrl('p'))`
bound earlier to `AutoArrange` and, as the final entry of the list, to
`SelectPrevSibling`; folding the list into the table in order with
last-write-wins makes resolution of `Ctrl('p')` in `Normal` mode yield
`SelectPrevSibling`. -/
theorem C5_last_write_wins_ctrl_p :
    ((Mode.Normal, Key.Ctrl 'p'), Action.AutoArrange) ∈ default_list ∧
      default_list.getLast? =
        some ((Mode.Normal, Key.Ctrl 'p'), Action.SelectPrevSibling) ∧
      Config.map Config.default (Event.Key (Key.Ctrl 'p')) Mode.Normal =
        some Action.SelectPrevSibling := by decide

/-- C6: for every table, mode and character `c` with no entry for
`(mode, Char(c))`, resolving a plain character-key event for `c` returns
`Some` of the literal-character action carrying `(mode, c)` — never
`None`. -/
theorem C6_plain_char_fallback (cfg : Config) (mode : Mode) (c : Char)
    (h : Config.get cfg (mode, Key.Char c) = none) :
    Config.map cfg (Event.Key (Key.Char c)) mode =
      some (Action.Char mode c) := by
  simp [Config.map, h]

/-- C6 witness: `'z'` is unbound in `Insert` mode of the default table and
falls through to the literal-character action. -/
theorem C6_plain_char_fallback_witness :
    Config.map Config.default (Event.Key (Key.Char 'z')) Mode.Insert =
      some (Action.Char Mode.Insert 'z') :=
  C6_plain_char_fallback Config.default Mode.Insert 'z' (by decide)

/-- C7 counterexample: the token `é` consists of exactly one character and
is not a named literal token, yet `to_key` rejects it: the single-character
guard in the source tests `key.len() == 1`, which is the UTF-8 byte length
(2 for `é`), so the token falls through every arm and maps to `None`
instead of the literal character key. -/
theorem C7_one_char_token_counterexample :
    ("é").data.length = 1 ∧ to_key "é" = none := by decide

/-- C7 (amended): every token consisting of exactly one character whose
UTF-8 encoding is a single byte (equivalently, one ASCII character; such a
token is never one of the named literal tokens) maps to the literal
character key for that character. -/
theorem C7_single_byte_token_maps_to_char (c : Char) (h : c.utf8Size = 1) :
    to_key (String.mk [c]) = some (Key.Char c) := by
  simp [to_key, String.ext_iff, String.utf8ByteSize, h, extract_key]

/-- C7 witness: the one-byte token `k` maps to the literal `k` key. -/
theorem C7_single_byte_token_maps_to_char_witness :
    Char.utf8Size 'k' = 1 ∧ to_key (String.mk ['k']) = some (Key.Char 'k') :=
  ⟨by decide, C7_single_byte_token_maps_to_char 'k' (by decide)⟩

/-- C8: for every table, mode and non-character key event, resolution
equals the bare table lookup — the bound action when `(mode, key)` is
present and `None` when absent, with no fallback action (the source also
logs a diagnostic in the absent case, a side effect outside the returned
value). -/
theorem C8_nonchar_key_lookup_only (cfg : Config) (mode : Mode) (key : Key)
    (h : ∀ c : Char, key ≠ Key.Char c) :
    Config.map cfg (Event.Key key) mode = Config.get cfg (mode, key) := by
  cases key <;> first | rfl | exact absurd rfl (h _)

/-- C8 witness: `Esc` in `Normal` mode resolves to exactly the table
lookup (which is `None` there: only `Insert` binds `Esc`). -/
theorem C8_nonchar_key_lookup_only_witness :
    Config.map Config.default (Event.Key Key.Esc) Mode.Normal =
      Config.get Config.default (Mode.Normal, Key.Esc) :=
  C8_nonchar_key_lookup_only Config.default Mode.Normal Key.Esc
    (fun _ h => Key.noConfusion h)

/-- C9: for every non-blank, non-comment line reached by the parser (all
earlier lines blank or comments) that splits at its first colon into an
action token or key token the respective grammar rejects, construction
fails with the invalid-config fatal error carrying the 1-indexed line
number and the raw line text. -/
theorem C9_unresolvable_token_fatal (buf : String)
    (pre rest : List (Nat × String)) (i : Nat) (line rawA rawB : String)
    (henum : (rustLines buf).enum = pre ++ (i, line) :: rest)
    (hpre : pre.all (fun p => p.2.data.isEmpty || startsWithChar p.2 '#') = true)
    (hne : line.data.isEmpty = false)
    (hnh : startsWithChar line '#' = false)
    (hsplit : splitn2Colon line = [rawA, rawB])
    (hbad : ((to_key (trimStr rawB)).isNone ||
      (to_action (trimStr rawA)).isNone) = true) :
    parse_keyfile_text buf = .err (.invalidConfig (i + 1) line) := by
  unfold parse_keyfile_text
  rw [henum, processLines_append_skip pre _ hpre]
  simp [processLines, hsplit, hne, hnh, hbad]

/-- C9 witness: override text whose line 1 is `bogus_action: k` fails with
the invalid-config error carrying line number 1 and the raw line text. -/
theorem C9_unresolvable_token_fatal_witness :
    parse_keyfile_text "bogus_action: k" =
      .err (.invalidConfig 1 "bogus_action: k") :=
  C9_unresolvable_token_fatal "bogus_action: k" [] [] 0 "bogus_action: k"
    "bogus_action" " k" (by decide) (by decide) (by decide) (by decide)
    (by decide) (by decide)

/-- C10: for every table, mode and coordinates, resolving a right mouse
button press at `(x, y)` returns `Some` of the right-click action carrying
exactly `(x, y)`: the binding table is never consulted for mouse events
and the mode has no effect on the result. -/
theorem C10_right_click_unconditional (cfg : Config) (mode : Mode)
    (x y : Nat) :
    Config.map cfg (Event.Mouse (MouseEvent.Press MouseButton.Right x y))
      mode = some (Action.RightClick x y) := rfl

end Void
